import Mathlib

/-!
Verification of `src/outlook_calendar_checker/main.py` (Outlook calendar
availability checker): a shallow embedding of the payload builder, the
availability parser, the slot formatter, the notification fan-out and the
poll loop, together with theorems settling the specification claims.
-/

namespace OutlookChecker

/-! ### Data model of the upstream response (JSON shape consumed by parse_data) -/

/-- The value of an upstream startDateTime or endDateTime member of an
availability item: a JSON object that may carry a dateTime string.
Mirrors the shape read by item.get with a dict default in the source. -/
structure RawTimeObj where
  dateTime : Option String
deriving Repr, DecidableEq

/-- One availability item of the upstream response; all members optional,
as the source reads each with dict.get. -/
structure RawItem where
  status : Option String
  startDateTime : Option RawTimeObj
  endDateTime : Option RawTimeObj
deriving Repr, DecidableEq

/-- One staff entry of the upstream response. -/
structure RawStaff where
  availabilityItems : Option (List RawItem)
deriving Repr, DecidableEq

/-- The upstream JSON document handed to parse_data after JSON decoding. -/
structure RawResponse where
  staffAvailabilityResponse : Option (List RawStaff)
deriving Repr, DecidableEq

/-- A bookable slot extracted by the parser: the dict with startDateTime
and endDateTime appended to available_slots in the source. -/
structure Slot where
  startDateTime : String
  endDateTime : String
deriving Repr, DecidableEq

/-- The ValueError raised by parse_data or by the formatter, distinguished
by which of the raise sites (or library calls) produced it. In the source
all of these are the single Python type ValueError. -/
inductive ParseError where
  | missingStaffAvailabilityResponse
  | missingAvailabilityItems
  | missingTimestamp
  | badIsoTimestamp
deriving Repr, DecidableEq

/-! ### Availability parser (the else-branch of parse_data) -/

/-- The two statuses excluded by the parser. -/
def excludedStatuses : List String :=
  ["BOOKINGSAVAILABILITYSTATUS_BUSY", "BOOKINGSAVAILABILITYSTATUS_OUT_OF_OFFICE"]

/-- The Python test `status in [...]` on the optional status member:
a missing status (None) is not in the list of strings. -/
def statusExcluded (st : Option String) : Bool :=
  match st with
  | none => false
  | some s => decide (s ∈ excludedStatuses)

/-- The source expression item.get with a dict default, then .get on it:
yields the dateTime string when the member chain is present. -/
def itemGetStart (it : RawItem) : Option String :=
  (it.startDateTime.getD { dateTime := none }).dateTime

/-- Same as itemGetStart for the endDateTime member chain. -/
def itemGetEnd (it : RawItem) : Option String :=
  (it.endDateTime.getD { dateTime := none }).dateTime

/-- Python truthiness of the optional string held by start_time or
end_time in the source: None and the empty string are falsy. -/
def pyTruthyStr (s : Option String) : Bool :=
  match s with
  | none => false
  | some v => !(v == "")

/-- The inner item loop of parse_data: skip excluded statuses, raise
ValueError when a kept item misses a timestamp, otherwise append a Slot. -/
def parseItems : List RawItem → Except ParseError (List Slot)
  | [] => .ok []
  | it :: rest =>
    if statusExcluded it.status then
      parseItems rest
    else if !(pyTruthyStr (itemGetStart it)) || !(pyTruthyStr (itemGetEnd it)) then
      .error .missingTimestamp
    else
      match parseItems rest with
      | .error e => .error e
      | .ok slots =>
        .ok ({ startDateTime := (itemGetStart it).getD ""
               endDateTime := (itemGetEnd it).getD "" } :: slots)

/-- The outer staff loop of parse_data: raise ValueError when
availabilityItems is None (the source tests with an identity check,
so an empty item list is accepted), otherwise collect the item slots. -/
def parseStaffList : List RawStaff → Except ParseError (List Slot)
  | [] => .ok []
  | staff :: rest =>
    match staff.availabilityItems with
    | none => .error .missingAvailabilityItems
    | some items =>
      match parseItems items with
      | .error e => .error e
      | .ok slots =>
        match parseStaffList rest with
        | .error e => .error e
        | .ok more => .ok (slots ++ more)

/-- The non-test branch of parse_data: the source tests
`if not staff_response`, so both a missing member and a present but
falsy value (such as an empty list) raise the ValueError. -/
def parseSlots (data : RawResponse) : Except ParseError (List Slot) :=
  match data.staffAvailabilityResponse with
  | none => .error .missingStaffAvailabilityResponse
  | some staffList =>
    if staffList = [] then .error .missingStaffAvailabilityResponse
    else parseStaffList staffList

/-- The fixture slot returned when the test-mode flag is set. -/
def fixtureSlot : Slot :=
  { startDateTime := "2024-10-22T18:00:00", endDateTime := "2024-10-22T18:30:00" }

/-- The available_slots value computed by parse_data: the fixture in test
mode, otherwise the parsed slots. -/
def availableSlots (sendNotificationTest : Bool) (data : RawResponse) :
    Except ParseError (List Slot) :=
  if sendNotificationTest then .ok [fixtureSlot] else parseSlots data

/-! ### Spec-side description of the parser output (for the refinement
claim C2): from each staff entry in order, each item in order, drop the
excluded statuses and keep everything else as a Slot. -/

/-- Spec-side selector: the Slot an item contributes, or none when its
status is excluded. Written from the claim, to be compared with the
source-translated parser. -/
def specKeepSlot (it : RawItem) : Option Slot :=
  if statusExcluded it.status then none
  else some { startDateTime := (itemGetStart it).getD ""
              endDateTime := (itemGetEnd it).getD "" }

/-- Spec-side item list: upstream staff-then-item order, flattened. -/
def specAllItems (staffList : List RawStaff) : List RawItem :=
  staffList.flatMap fun s => s.availabilityItems.getD []

/-! ### Calendar arithmetic.  The source manipulates UTC instants through
datetime; the embedding uses seconds since 1970-01-01T00:00:00Z.  The
conversions below are the standard civil-calendar algorithms, valid for
every instant from 1970 on (all instants in this development). -/

/-- Days since 1970-01-01 of a proleptic Gregorian date (year ≥ 1583
in this development, so no Nat underflow occurs). -/
def daysFromCivil (y m d : Nat) : Nat :=
  let y' := if m ≤ 2 then y - 1 else y
  let era := y' / 400
  let yoe := y' % 400
  let doy := (153 * (if 2 < m then m - 3 else m + 9) + 2) / 5 + d - 1
  let doe := yoe * 365 + yoe / 4 - yoe / 100 + doy
  era * 146097 + doe - 719468

/-- Civil date (year, month, day) of a day count since 1970-01-01. -/
def civilFromDays (z0 : Nat) : Nat × Nat × Nat :=
  let z := z0 + 719468
  let era := z / 146097
  let doe := z % 146097
  let yoe := (doe + doe / 36524 - doe / 1460 - doe / 146096) / 365
  let y := yoe + era * 400
  let doy := doe - (365 * yoe + yoe / 4 - yoe / 100)
  let mp := (5 * doy + 2) / 153
  let d := doy - (153 * mp + 2) / 5 + 1
  let m := if mp < 10 then mp + 3 else mp - 9
  (if m ≤ 2 then y + 1 else y, m, d)

/-- Zero-padded two-digit decimal rendering (strftime %d, %m, %I, %M). -/
def pad2 (n : Nat) : String :=
  if n < 10 then "0" ++ toString n else toString n

/-- Zero-padded four-digit decimal rendering (strftime %Y). -/
def pad4 (n : Nat) : String :=
  if n < 10 then "000" ++ toString n
  else if n < 100 then "00" ++ toString n
  else if n < 1000 then "0" ++ toString n
  else toString n

/-! ### Payload builder (_create_post_payload) -/

/-- One of the two dateTime/timeZone pairs of the POST payload. -/
structure DateTimeTz where
  dateTime : String
  timeZone : String
deriving Repr, DecidableEq

/-- The POST payload built by _create_post_payload. -/
structure PostPayload where
  serviceId : String
  staffIds : List String
  startDateTime : DateTimeTz
  endDateTime : DateTimeTz
deriving Repr, DecidableEq

/-- The strftime format string of the source zeroes the time of day, so
an instant renders as its UTC calendar date at midnight. -/
def dateAtMidnightStr (secs : Nat) : String :=
  let c := civilFromDays (secs / 86400)
  pad4 c.1 ++ "-" ++ pad2 c.2.1 ++ "-" ++ pad2 c.2.2 ++ "T00:00:00"

/-- The _create_post_payload function: start is one day before now,
end is twelve days after start, both rendered at midnight with the fixed
upstream timezone label. -/
def createPostPayload (serviceId : String) (staffIds : List String)
    (nowUtcSecs : Nat) : PostPayload :=
  let startDateSecs := nowUtcSecs - 86400
  let endDateSecs := startDateSecs + 12 * 86400
  { serviceId := serviceId
    staffIds := staffIds
    startDateTime := { dateTime := dateAtMidnightStr startDateSecs
                       timeZone := "Pacific Standard Time" }
    endDateTime := { dateTime := dateAtMidnightStr endDateSecs
                     timeZone := "Pacific Standard Time" } }

/-! ### Slot formatter (_format_available_slots) -/

/-- Decimal value of a digit list (most significant first). -/
def digitsVal (cs : List Char) : Nat :=
  cs.foldl (fun a c => a * 10 + (c.toNat - 48)) 0

/-- The naive instant denoted by a plain ISO 8601 timestamp string
YYYY-MM-DDTHH:MM:SS, as naive seconds since the epoch, or none when the
string is not of that shape (datetime.fromisoformat raises ValueError).
Modelled for the single format the upstream items and the fixture use. -/
def parseIsoNaive (s : String) : Option Nat :=
  match s.toList with
  | [y1, y2, y3, y4, '-', m1, m2, '-', d1, d2, 'T', h1, h2, ':', n1, n2, ':', s1, s2] =>
    if ([y1, y2, y3, y4, m1, m2, d1, d2, h1, h2, n1, n2, s1, s2].all Char.isDigit) then
      let mo := digitsVal [m1, m2]
      let da := digitsVal [d1, d2]
      let ho := digitsVal [h1, h2]
      let mi := digitsVal [n1, n2]
      let se := digitsVal [s1, s2]
      if 1 ≤ mo ∧ mo ≤ 12 ∧ 1 ≤ da ∧ da ≤ 31 ∧ ho < 24 ∧ mi < 60 ∧ se < 60 then
        some (daysFromCivil (digitsVal [y1, y2, y3, y4]) mo da * 86400
              + ho * 3600 + mi * 60 + se)
      else none
    else none
  | _ => none

/-- Modelled from the tz database consumed through pytz: the UTC offset
in minutes of America/Los_Angeles at a given UTC instant, written out for
2024, the only year the claims evaluate (DST from 2024-03-10T10:00:00Z
to 2024-11-03T09:00:00Z). -/
def laTzOffsetMin (utcSecs : Int) : Int :=
  if 1710064800 ≤ utcSecs ∧ utcSecs < 1730624400 then -420 else -480

/-- The astimezone call of the source on a naive datetime: Python
interprets a naive value in the process system timezone (modelled as a
fixed UTC offset in minutes) and converts to the display timezone. -/
def naiveToDisplay (tz : Int → Int) (sysOffMin : Int) (naiveSecs : Nat) : Int :=
  let utc : Int := (naiveSecs : Int) - sysOffMin * 60
  utc + tz utc * 60

/-- Civil components (y, m, d, h, mi) of a local instant.  Local instants
in this development are after 1970, so truncation to Nat is exact. -/
def civilOfSecs (t : Int) : Nat × Nat × Nat × Nat × Nat :=
  let tn := t.toNat
  let c := civilFromDays (tn / 86400)
  (c.1, c.2.1, c.2.2, tn % 86400 / 3600, tn % 3600 / 60)

/-- English month abbreviations of strftime %b. -/
def monthAbbrev (m : Nat) : String :=
  match m with
  | 1 => "Jan" | 2 => "Feb" | 3 => "Mar" | 4 => "Apr" | 5 => "May" | 6 => "Jun"
  | 7 => "Jul" | 8 => "Aug" | 9 => "Sep" | 10 => "Oct" | 11 => "Nov" | 12 => "Dec"
  | _ => ""

/-- Hour on the 12-hour clock of strftime %I. -/
def hour12 (h : Nat) : Nat :=
  if h % 12 = 0 then 12 else h % 12

/-- The AM/PM marker of strftime %p. -/
def amPm (h : Nat) : String :=
  if h < 12 then "AM" else "PM"

/-- strftime with format %I:%M%p at a local instant. -/
def fmtTimeOnly (t : Int) : String :=
  let c := civilOfSecs t
  pad2 (hour12 c.2.2.2.1) ++ ":" ++ pad2 c.2.2.2.2 ++ amPm c.2.2.2.1

/-- strftime with format %b %d %I:%M%p at a local instant. -/
def fmtMonthDayTime (t : Int) : String :=
  let c := civilOfSecs t
  monthAbbrev c.2.1 ++ " " ++ pad2 c.2.2.1 ++ " " ++ fmtTimeOnly t

/-- One line of _format_available_slots: parse both timestamps, convert
to the display timezone, render start with date and end without. -/
def formatSlot (tz : Int → Int) (sysOffMin : Int) (slot : Slot) : Option String :=
  match parseIsoNaive slot.startDateTime, parseIsoNaive slot.endDateTime with
  | some sN, some eN =>
    some (fmtMonthDayTime (naiveToDisplay tz sysOffMin sN) ++ " - "
          ++ fmtTimeOnly (naiveToDisplay tz sysOffMin eN))
  | _, _ => none

/-- The _format_available_slots function: format every slot and join the
lines with newlines; none models the ValueError fromisoformat raises on a
malformed timestamp. -/
def formatAvailableSlots (tz : Int → Int) (sysOffMin : Int)
    (slots : List Slot) : Option String :=
  (slots.mapM (formatSlot tz sysOffMin)).map (String.intercalate "\n")

/-! ### Configuration and notification fan-out (send_notification) -/

/-- The per-run settings main.py reads from config.yaml before the loop
starts (the members the claims need). -/
structure Config where
  email : String
  getToken : String
  recipients : List String
deriving Repr, DecidableEq

/-- The GET_URL module constant (also the booking link of the message). -/
def getUrl (cfg : Config) : String :=
  "https://outlook.office365.com/book/" ++ cfg.email ++ "/s/" ++ cfg.getToken

/-- Python str.strip applied to a recipient: drop leading and trailing
whitespace. -/
def pyStrip (s : String) : String :=
  ⟨((s.toList.dropWhile Char.isWhitespace).reverse.dropWhile Char.isWhitespace).reverse⟩

/-- One Twilio client.messages.create invocation. -/
structure NotifyCall where
  recipient : String
  body : String
deriving Repr, DecidableEq

/-- The recipient loop inside the try of send_notification: strip each
recipient, skip falsy ones, invoke the Twilio create call.  failSend says
which sends raise; an exception escapes the loop at once, so the result
is the list of create calls invoked together with the flag telling
whether the handler wrapping the whole loop fired. -/
def fanOut (failSend : String → Bool) (message : String) :
    List String → List NotifyCall × Bool
  | [] => ([], false)
  | r :: rest =>
    let r' := pyStrip r
    if r' = "" then fanOut failSend message rest
    else if failSend r' then ([{ recipient := r', body := message }], true)
    else
      let res := fanOut failSend message rest
      ({ recipient := r', body := message } :: res.1, res.2)

/-- The send_notification function: with no recipients configured it only
logs and returns; otherwise it runs the fan-out under a single exception
handler around the whole loop. -/
def send_notification (recipients : List String) (failSend : String → Bool)
    (message : String) : List NotifyCall × Bool :=
  if recipients = [] then ([], false)
  else fanOut failSend message recipients

/-! ### The whole parse_data function, notification included -/

/-- What one parse_data run did: the slots found, the Twilio calls made,
and whether a notification exception was swallowed. -/
structure ParseOutcome where
  slots : List Slot
  calls : List NotifyCall
  notifyExnCaught : Bool
deriving Repr, DecidableEq

/-- The parse_data function: compute available_slots (fixture in test
mode), then, when the list is truthy, format it and send the message to
the configured recipients.  tz is the display timezone (the config
default America/Los_Angeles in every claim), sysOffMin the system
timezone offset in which Python interprets the naive timestamps. -/
def parseData (cfg : Config) (tz : Int → Int) (sysOffMin : Int)
    (failSend : String → Bool) (sendNotificationTest : Bool)
    (data : RawResponse) : Except ParseError ParseOutcome :=
  match availableSlots sendNotificationTest data with
  | .error e => .error e
  | .ok slots =>
    if slots = [] then .ok { slots := slots, calls := [], notifyExnCaught := false }
    else
      match formatAvailableSlots tz sysOffMin slots with
      | none => .error .badIsoTimestamp
      | some formatted =>
        let msg := "Booking Slots Available!\n\n" ++ formatted ++ "\n\nGo to: " ++ getUrl cfg
        let res := send_notification cfg.recipients failSend msg
        .ok { slots := slots, calls := res.1, notifyExnCaught := res.2 }

/-! ### Poll loop (check_availability) -/

/-- The Python exception types that matter to the handlers of the loop. -/
inductive PyErr where
  | valueError
  | requestException
deriving Repr, DecidableEq

/-- The network outcomes of one cycle over bodies that decode to the
expected document shape: the GET status (none models a raised
RequestException), and the POST status together with the JSON decoding of
its body (none models a ValueError from .json()).  Decoded documents of
unexpected JSON shape are outside this type; they are covered by the
untyped CycleEnvJ model further down. -/
structure CycleEnv where
  getResult : Option Nat
  postResult : Option (Nat × Option RawResponse)
deriving Repr, DecidableEq

/-- What one loop iteration did. -/
structure CycleTrace where
  postIssued : Bool
  parseAttempted : Bool
  calls : List NotifyCall
  errorLogged : Bool
  sleptSeconds : Nat
deriving Repr, DecidableEq

/-- The inner try body of the loop: JSON-decode the POST body, then run
parse_data; both failure modes raise ValueError. -/
def innerTryBody (cfg : Config) (tz : Int → Int) (sysOffMin : Int)
    (failSend : String → Bool) (testMode : Bool)
    (decoded : Option RawResponse) : Except PyErr ParseOutcome :=
  match decoded with
  | none => .error .valueError
  | some data =>
    match parseData cfg tz sysOffMin failSend testMode data with
    | .error _ => .error .valueError
    | .ok out => .ok out

/-- The outer try body of one loop iteration: GET, status check, POST,
status check, then the inner try whose except catches ValueError only. -/
def outerTryBody (cfg : Config) (tz : Int → Int) (sysOffMin : Int)
    (failSend : String → Bool) (testMode : Bool) (interval : Nat)
    (env : CycleEnv) : Except PyErr CycleTrace :=
  match env.getResult with
  | none => .error .requestException
  | some gst =>
    if gst ≠ 200 then
      .ok { postIssued := false, parseAttempted := false, calls := []
            errorLogged := true, sleptSeconds := interval }
    else
      match env.postResult with
      | none => .error .requestException
      | some (pst, decoded) =>
        if pst ≠ 200 then
          .ok { postIssued := true, parseAttempted := false, calls := []
                errorLogged := true, sleptSeconds := interval }
        else
          match innerTryBody cfg tz sysOffMin failSend testMode decoded with
          | .error .valueError =>
            .ok { postIssued := true, parseAttempted := decoded.isSome, calls := []
                  errorLogged := true, sleptSeconds := interval }
          | .error e => .error e
          | .ok out =>
            .ok { postIssued := true, parseAttempted := true, calls := out.calls
                  errorLogged := false, sleptSeconds := interval }

/-- One iteration of the while loop of check_availability: the outer
except catches RequestException only; an error result models an
exception escaping the loop and crashing the process. -/
def runCycle (cfg : Config) (tz : Int → Int) (sysOffMin : Int)
    (failSend : String → Bool) (testMode : Bool) (interval : Nat)
    (env : CycleEnv) : Except PyErr CycleTrace :=
  match outerTryBody cfg tz sysOffMin failSend testMode interval env with
  | .error .requestException =>
    .ok { postIssued := env.getResult.isSome, parseAttempted := false
          calls := [], errorLogged := true, sleptSeconds := interval }
  | .error e => .error e
  | .ok t => .ok t

/-! ### Decoded JSON documents and the loop over them.
response.json() returns an arbitrary Python object decoded from JSON, and
parse_data accesses it dynamically: on a document of unexpected shape the
accesses raise AttributeError or TypeError rather than the ValueError the
loop catches.  The typed RawResponse embedding above covers documents of
the expected shape; the loop-containment claim needs this untyped one. -/

/-- A decoded JSON value. -/
inductive Json where
  | null
  | bool (b : Bool)
  | num (n : Int)
  | str (s : String)
  | arr (elems : List Json)
  | obj (members : List (String × Json))

/-- The Python exception classes that can reach the handlers of the
loop when parse_data runs on a decoded document. -/
inductive PyExn where
  | valueError
  | attributeError
  | typeError
  | requestException
deriving Repr, DecidableEq

/-- First value bound to a key in a decoded JSON object. -/
def jsonLookup : List (String × Json) → String → Option Json
  | [], _ => none
  | kv :: rest, key => if kv.1 = key then some kv.2 else jsonLookup rest key

/-- Python truthiness of a decoded value. -/
def jsonTruthy : Json → Bool
  | .null => false
  | .bool b => b
  | .num n => !(n == 0)
  | .str s => !(s == "")
  | .arr elems => !elems.isEmpty
  | .obj members => !members.isEmpty

/-- Python identity test against None; JSON null decodes to None, and so
does the missing-key default of dict.get. -/
def jsonIsNull : Json → Bool
  | .null => true
  | _ => false

/-- The call v.get(key): only a dict has the get attribute, anything else
raises AttributeError; a missing key yields the default None, merged here
with JSON null since both decode to Python None. -/
def jsonGet (v : Json) (key : String) : Except PyExn Json :=
  match v with
  | .obj members => .ok ((jsonLookup members key).getD .null)
  | _ => .error .attributeError

/-- The call v.get(key, d) with an explicit default. -/
def jsonGetD (v : Json) (key : String) (d : Json) : Except PyExn Json :=
  match v with
  | .obj members => .ok ((jsonLookup members key).getD d)
  | _ => .error .attributeError

/-- Python iteration over a decoded value: a list yields its elements, a
string its characters, a dict its keys; null, numbers and booleans are
not iterable and raise TypeError. -/
def jsonElems (v : Json) : Except PyExn (List Json) :=
  match v with
  | .arr elems => .ok elems
  | .str s => .ok (s.toList.map fun c => .str ⟨[c]⟩)
  | .obj members => .ok (members.map fun kv => .str kv.1)
  | _ => .error .typeError

/-- The status test of the item loop: only a string can equal one of the
excluded status strings. -/
def statusExcludedJ (v : Json) : Bool :=
  match v with
  | .str s => decide (s ∈ excludedStatuses)
  | _ => false

/-- The chained expression of the source: item.get of the key with an
empty-dict default, then .get of dateTime on the result.  A present
non-dict value, a string or null for instance, makes the second get
raise AttributeError. -/
def itemGetTimeJ (item : Json) (key : String) : Except PyExn Json := do
  let outer ← jsonGetD item key (.obj [])
  jsonGet outer "dateTime"

/-- The item loop of parse_data over a decoded document. -/
def parseItemsJ : List Json → Except PyExn (List (Json × Json))
  | [] => .ok []
  | item :: rest => do
    let status ← jsonGet item "status"
    if statusExcludedJ status then parseItemsJ rest
    else do
      let s ← itemGetTimeJ item "startDateTime"
      let e ← itemGetTimeJ item "endDateTime"
      if !(jsonTruthy s) || !(jsonTruthy e) then .error .valueError
      else do
        let slots ← parseItemsJ rest
        .ok ((s, e) :: slots)

/-- The staff loop of parse_data over a decoded document; the items
member is tested with an identity check against None and then iterated. -/
def parseStaffListJ : List Json → Except PyExn (List (Json × Json))
  | [] => .ok []
  | staff :: rest => do
    let items ← jsonGet staff "availabilityItems"
    if jsonIsNull items then .error .valueError
    else do
      let itemList ← jsonElems items
      let slots ← parseItemsJ itemList
      let more ← parseStaffListJ rest
      .ok (slots ++ more)

/-- The non-test branch of parse_data over a decoded document. -/
def parseSlotsJ (data : Json) : Except PyExn (List (Json × Json)) := do
  let staffResponse ← jsonGet data "staffAvailabilityResponse"
  if !(jsonTruthy staffResponse) then .error .valueError
  else do
    let staffList ← jsonElems staffResponse
    parseStaffListJ staffList

/-- fromisoformat over a decoded slot timestamp: a malformed string
raises ValueError, a non-string TypeError. -/
def fromIsoJ (v : Json) : Except PyExn Nat :=
  match v with
  | .str s =>
    match parseIsoNaive s with
    | some n => .ok n
    | none => .error .valueError
  | _ => .error .typeError

/-- One formatter line over a decoded slot. -/
def formatSlotJ (tz : Int → Int) (sysOffMin : Int) (slot : Json × Json) :
    Except PyExn String := do
  let sN ← fromIsoJ slot.1
  let eN ← fromIsoJ slot.2
  .ok (fmtMonthDayTime (naiveToDisplay tz sysOffMin sN) ++ " - "
       ++ fmtTimeOnly (naiveToDisplay tz sysOffMin eN))

/-- The formatter over decoded slots. -/
def formatAvailableSlotsJ (tz : Int → Int) (sysOffMin : Int)
    (slots : List (Json × Json)) : Except PyExn String :=
  (slots.mapM (formatSlotJ tz sysOffMin)).map (String.intercalate "\n")

/-- What one parse_data run over a decoded document did. -/
structure ParseOutcomeJ where
  slots : List (Json × Json)
  calls : List NotifyCall
  notifyExnCaught : Bool

/-- The parse_data function over a decoded document of arbitrary shape,
notification included. -/
def parseDataJ (cfg : Config) (tz : Int → Int) (sysOffMin : Int)
    (failSend : String → Bool) (sendNotificationTest : Bool)
    (data : Json) : Except PyExn ParseOutcomeJ := do
  let slots ← if sendNotificationTest then
      .ok [(Json.str "2024-10-22T18:00:00", Json.str "2024-10-22T18:30:00")]
    else parseSlotsJ data
  if slots.isEmpty then .ok { slots := slots, calls := [], notifyExnCaught := false }
  else do
    let formatted ← formatAvailableSlotsJ tz sysOffMin slots
    let msg := "Booking Slots Available!\n\n" ++ formatted ++ "\n\nGo to: " ++ getUrl cfg
    let res := send_notification cfg.recipients failSend msg
    .ok { slots := slots, calls := res.1, notifyExnCaught := res.2 }

/-- The network outcomes of one cycle with the POST body decoded to an
arbitrary JSON value: none in place of the document models the ValueError
raised by response.json() on an undecodable body. -/
structure CycleEnvJ where
  getResult : Option Nat
  postResult : Option (Nat × Option Json)

/-- The inner try body over a decoded document. -/
def innerTryBodyJ (cfg : Config) (tz : Int → Int) (sysOffMin : Int)
    (failSend : String → Bool) (testMode : Bool)
    (decoded : Option Json) : Except PyExn ParseOutcomeJ :=
  match decoded with
  | none => .error .valueError
  | some data => parseDataJ cfg tz sysOffMin failSend testMode data

/-- The outer try body over a decoded document; the inner except catches
ValueError only, so AttributeError and TypeError pass through it. -/
def outerTryBodyJ (cfg : Config) (tz : Int → Int) (sysOffMin : Int)
    (failSend : String → Bool) (testMode : Bool) (interval : Nat)
    (env : CycleEnvJ) : Except PyExn CycleTrace :=
  match env.getResult with
  | none => .error .requestException
  | some gst =>
    if gst ≠ 200 then
      .ok { postIssued := false, parseAttempted := false, calls := []
            errorLogged := true, sleptSeconds := interval }
    else
      match env.postResult with
      | none => .error .requestException
      | some (pst, decoded) =>
        if pst ≠ 200 then
          .ok { postIssued := true, parseAttempted := false, calls := []
                errorLogged := true, sleptSeconds := interval }
        else
          match innerTryBodyJ cfg tz sysOffMin failSend testMode decoded with
          | .error .valueError =>
            .ok { postIssued := true, parseAttempted := decoded.isSome, calls := []
                  errorLogged := true, sleptSeconds := interval }
          | .error e => .error e
          | .ok out =>
            .ok { postIssued := true, parseAttempted := true, calls := out.calls
                  errorLogged := false, sleptSeconds := interval }

/-- One loop iteration over a decoded document: the outer except catches
RequestException only; an error result is an exception escaping the loop
and crashing the process. -/
def runCycleJ (cfg : Config) (tz : Int → Int) (sysOffMin : Int)
    (failSend : String → Bool) (testMode : Bool) (interval : Nat)
    (env : CycleEnvJ) : Except PyExn CycleTrace :=
  match outerTryBodyJ cfg tz sysOffMin failSend testMode interval env with
  | .error .requestException =>
    .ok { postIssued := env.getResult.isSome, parseAttempted := false
          calls := [], errorLogged := true, sleptSeconds := interval }
  | .error e => .error e
  | .ok t => .ok t

/-! ### Concrete values used by the closed instances of the theorems -/

/-- Example configuration: two recipients, as a fan-out needs. -/
def cfgEx : Config :=
  { email := "shop@example.com", getToken := "tok123"
    recipients := ["+15550000001", "+15550000002"] }

/-- An item the parser must skip. -/
def busyItem : RawItem :=
  { status := some "BOOKINGSAVAILABILITYSTATUS_BUSY"
    startDateTime := none, endDateTime := none }

/-- An item the parser must keep. -/
def freeItem : RawItem :=
  { status := some "BOOKINGSAVAILABILITYSTATUS_FREE"
    startDateTime := some { dateTime := some "2024-12-05T17:00:00" }
    endDateTime := some { dateTime := some "2024-12-05T17:30:00" } }

/-- A kept-status item missing its end timestamp. -/
def freeItemNoEnd : RawItem :=
  { status := some "BOOKINGSAVAILABILITYSTATUS_FREE"
    startDateTime := some { dateTime := some "2024-10-22T18:00:00" }
    endDateTime := none }

/-- A structurally valid response with one skipped and one kept item. -/
def respEx : RawResponse :=
  { staffAvailabilityResponse := some [{ availabilityItems := some [busyItem, freeItem] }] }

/-- A response whose only staff entry misses availabilityItems. -/
def respMissingItems : RawResponse :=
  { staffAvailabilityResponse := some [{ availabilityItems := none }] }

/-- A response whose kept item misses a timestamp. -/
def respBadItem : RawResponse :=
  { staffAvailabilityResponse := some [{ availabilityItems := some [freeItemNoEnd] }] }

/-- The message parse_data sends for respEx under cfgEx with the process
system timezone UTC. -/
def msgEx : String :=
  "Booking Slots Available!\n\nDec 05 09:00AM - 09:30AM\n\nGo to: https://outlook.office365.com/book/shop@example.com/s/tok123"

/-- The outcome of parse_data on respEx under cfgEx (UTC system zone). -/
def outEx : ParseOutcome :=
  { slots := [{ startDateTime := "2024-12-05T17:00:00"
                endDateTime := "2024-12-05T17:30:00" }]
    calls := [{ recipient := "+15550000001", body := msgEx },
              { recipient := "+15550000002", body := msgEx }]
    notifyExnCaught := false }

/-- The message parse_data sends in test mode under cfgEx with the
process system timezone UTC. -/
def msgFixtureEx : String :=
  "Booking Slots Available!\n\nOct 22 11:00AM - 11:30AM\n\nGo to: https://outlook.office365.com/book/shop@example.com/s/tok123"

/-- The outcome of parse_data in test mode under cfgEx (UTC system
zone), whatever the upstream response held. -/
def outFixtureEx : ParseOutcome :=
  { slots := [fixtureSlot]
    calls := [{ recipient := "+15550000001", body := msgFixtureEx },
              { recipient := "+15550000002", body := msgFixtureEx }]
    notifyExnCaught := false }

/-! ### Parser lemmas -/

theorem parseItems_ok_eq (items : List RawItem) (slots : List Slot)
    (h : parseItems items = .ok slots) : slots = items.filterMap specKeepSlot := by
  induction items generalizing slots with
  | nil =>
    simp [parseItems] at h
    simp [h]
  | cons it rest ih =>
    unfold parseItems at h
    split at h
    · rename_i hex
      rw [List.filterMap_cons]
      simp only [specKeepSlot, hex, if_pos]
      exact ih slots h
    · rename_i hex
      split at h
      · exact absurd h (by simp)
      · rename_i hts
        split at h
        · exact absurd h (by simp)
        · rename_i slots' hrec
          simp only [Except.ok.injEq] at h
          rw [← h, ih slots' hrec, List.filterMap_cons]
          simp [specKeepSlot, hex]

theorem parseItems_ok_timestamps (items : List RawItem) (slots : List Slot)
    (h : parseItems items = .ok slots) :
    ∀ it ∈ items, ¬ statusExcluded it.status →
      pyTruthyStr (itemGetStart it) ∧ pyTruthyStr (itemGetEnd it) := by
  induction items generalizing slots with
  | nil => intro it hit; simp at hit
  | cons hd rest ih =>
    intro it hit hkeep
    unfold parseItems at h
    split at h
    · rename_i hex
      rcases List.mem_cons.mp hit with rfl | hmem
      · exact absurd hex hkeep
      · exact ih slots h it hmem hkeep
    · rename_i hex
      split at h
      · exact absurd h (by simp)
      · rename_i hts
        rcases List.mem_cons.mp hit with rfl | hmem
        · have h1 : pyTruthyStr (itemGetStart it) = true := by
            rcases hb : pyTruthyStr (itemGetStart it) with _ | _
            · exact absurd (by simp [hb]) hts
            · rfl
          have h2 : pyTruthyStr (itemGetEnd it) = true := by
            rcases hb : pyTruthyStr (itemGetEnd it) with _ | _
            · exact absurd (by simp [hb]) hts
            · rfl
          exact ⟨h1, h2⟩
        · split at h
          · exact absurd h (by simp)
          · rename_i slots' hrec
            exact ih slots' hrec it hmem hkeep

theorem parseStaffList_ok_eq (staffList : List RawStaff) (slots : List Slot)
    (h : parseStaffList staffList = .ok slots) :
    slots = (specAllItems staffList).filterMap specKeepSlot := by
  induction staffList generalizing slots with
  | nil =>
    simp [parseStaffList] at h
    simp [h, specAllItems]
  | cons staff rest ih =>
    unfold parseStaffList at h
    split at h
    · exact absurd h (by simp)
    · rename_i items hai
      split at h
      · exact absurd h (by simp)
      · rename_i slots₁ hitems
        split at h
        · exact absurd h (by simp)
        · rename_i slots₂ hrest
          simp only [Except.ok.injEq] at h
          rw [← h, parseItems_ok_eq items slots₁ hitems, ih slots₂ hrest]
          simp [specAllItems, hai, List.filterMap_append]

theorem parseStaffList_ok_items_present (staffList : List RawStaff) (slots : List Slot)
    (h : parseStaffList staffList = .ok slots) :
    ∀ staff ∈ staffList, staff.availabilityItems ≠ none := by
  induction staffList generalizing slots with
  | nil => intro s hs; simp at hs
  | cons hd rest ih =>
    intro s hs
    unfold parseStaffList at h
    split at h
    · exact absurd h (by simp)
    · rename_i items hai
      split at h
      · exact absurd h (by simp)
      · rename_i slots₁ hitems
        split at h
        · exact absurd h (by simp)
        · rename_i slots₂ hrest
          rcases List.mem_cons.mp hs with rfl | hmem
          · simp [hai]
          · exact ih slots₂ hrest s hmem

theorem parseStaffList_ok_item_timestamps (staffList : List RawStaff) (slots : List Slot)
    (h : parseStaffList staffList = .ok slots) :
    ∀ staff ∈ staffList, ∀ items, staff.availabilityItems = some items →
      ∀ it ∈ items, ¬ statusExcluded it.status →
        pyTruthyStr (itemGetStart it) ∧ pyTruthyStr (itemGetEnd it) := by
  induction staffList generalizing slots with
  | nil => intro s hs; simp at hs
  | cons hd rest ih =>
    intro s hs items hitems it hit hkeep
    unfold parseStaffList at h
    split at h
    · exact absurd h (by simp)
    · rename_i items₀ hai
      split at h
      · exact absurd h (by simp)
      · rename_i slots₁ hpi
        split at h
        · exact absurd h (by simp)
        · rename_i slots₂ hrest
          rcases List.mem_cons.mp hs with rfl | hmem
          · rw [hai] at hitems
            cases hitems
            exact parseItems_ok_timestamps items slots₁ hpi it hit hkeep
          · exact ih slots₂ hrest s hmem items hitems it hit hkeep

/-! ### Fan-out lemmas -/

theorem fanOut_all_ok (msg : String) : ∀ rs : List String,
    (∀ r ∈ rs, pyStrip r ≠ "") →
    fanOut (fun _ => false) msg rs
      = (rs.map fun r => { recipient := pyStrip r, body := msg }, false) := by
  intro rs
  induction rs with
  | nil => intro _; rfl
  | cons r rest ih =>
    intro h
    have hr : pyStrip r ≠ "" := h r (by simp)
    have ih' := ih fun x hx => h x (by simp [hx])
    simp [fanOut, hr, ih']

theorem fanOut_stops (failSend : String → Bool) (msg r : String) (post : List String)
    (hr : pyStrip r ≠ "") (hfail : failSend (pyStrip r) = true) :
    ∀ pre : List String,
      (∀ p ∈ pre, pyStrip p ≠ "" ∧ failSend (pyStrip p) = false) →
      fanOut failSend msg (pre ++ r :: post)
        = ((pre.map fun p => { recipient := pyStrip p, body := msg })
            ++ [{ recipient := pyStrip r, body := msg }], true) := by
  intro pre
  induction pre with
  | nil => intro _; simp [fanOut, hr, hfail]
  | cons p rest ih =>
    intro h
    obtain ⟨hp, hps⟩ := h p (by simp)
    have ih' := ih fun x hx => h x (by simp [hx])
    simp [fanOut, hp, hps, ih']

/-! ### Poll-loop lemma: every cycle returns normally and sleeps -/

theorem runCycle_contained (cfg : Config) (tz : Int → Int) (sysOffMin : Int)
    (failSend : String → Bool) (testMode : Bool) (interval : Nat) (env : CycleEnv) :
    ∃ t : CycleTrace,
      runCycle cfg tz sysOffMin failSend testMode interval env = .ok t ∧
      t.sleptSeconds = interval ∧
      (env.getResult = some 200 →
        ∀ pst decoded, env.postResult = some (pst, decoded) → pst = 200 →
          (decoded = none ∨ (∃ data e, decoded = some data ∧
            parseData cfg tz sysOffMin failSend testMode data = .error e)) →
          t.errorLogged = true ∧ t.calls = []) := by
  obtain ⟨g, p⟩ := env
  rcases g with _ | gst
  · exact ⟨_, rfl, rfl, by intro hg; simp at hg⟩
  · by_cases h200 : gst = 200
    · subst h200
      rcases p with _ | ⟨pst, decoded⟩
      · exact ⟨_, rfl, rfl, by intro _ pst decoded hp; simp at hp⟩
      · by_cases hpst : pst = 200
        · subst hpst
          rcases decoded with _ | data
          · exact ⟨_, rfl, rfl, fun _ _ _ _ _ _ => ⟨rfl, rfl⟩⟩
          · rcases hpd : parseData cfg tz sysOffMin failSend testMode data with e | out
            · refine ⟨{ postIssued := true, parseAttempted := true, calls := []
                        errorLogged := true, sleptSeconds := interval }, ?_, rfl, ?_⟩
              · simp [runCycle, outerTryBody, innerTryBody, hpd]
              · exact fun _ _ _ _ _ _ => ⟨rfl, rfl⟩
            · refine ⟨{ postIssued := true, parseAttempted := true, calls := out.calls
                        errorLogged := false, sleptSeconds := interval }, ?_, rfl, ?_⟩
              · simp [runCycle, outerTryBody, innerTryBody, hpd]
              · intro _ pst' d' hp _ hfailed
                simp only [Option.some.injEq, Prod.mk.injEq] at hp
                obtain ⟨_, hd⟩ := hp
                rcases hfailed with hnone | ⟨data', e, hde, hpe⟩
                · rw [← hd] at hnone; simp at hnone
                · rw [← hd] at hde
                  simp only [Option.some.injEq] at hde
                  subst hde
                  rw [hpd] at hpe
                  simp at hpe
        · refine ⟨{ postIssued := true, parseAttempted := false, calls := []
                    errorLogged := true, sleptSeconds := interval }, ?_, rfl, ?_⟩
          · simp [runCycle, outerTryBody, hpst]
          · intro _ pst' d' hp h200' _
            simp only [Option.some.injEq, Prod.mk.injEq] at hp
            exact absurd (hp.1.trans h200') hpst
    · refine ⟨{ postIssued := false, parseAttempted := false, calls := []
                errorLogged := true, sleptSeconds := interval }, ?_, rfl, ?_⟩
      · simp [runCycle, outerTryBody, h200]
      · intro hg
        simp only [Option.some.injEq] at hg
        exact absurd hg h200

/-! ### Claim theorems -/

/-- C2: for every upstream response that passes structural validation,
the parser returns exactly the items whose status is not excluded, each
as a Slot carrying its timestamps, in upstream staff-then-item order
with no sorting or merging. -/
theorem parser_output_is_status_filter (data : RawResponse) (slots : List Slot)
    (h : parseSlots data = .ok slots) :
    ∃ staffList, data.staffAvailabilityResponse = some staffList ∧
      slots = (specAllItems staffList).filterMap specKeepSlot := by
  unfold parseSlots at h
  split at h
  · exact absurd h (by simp)
  · rename_i staffList hai
    split at h
    · exact absurd h (by simp)
    · exact ⟨staffList, hai, parseStaffList_ok_eq staffList slots h⟩

/-- C2 witness: the theorem applied to a concrete response with one
excluded and one kept item. -/
theorem parser_output_is_status_filter_witness :
    parseSlots respEx
        = .ok [{ startDateTime := "2024-12-05T17:00:00"
                 endDateTime := "2024-12-05T17:30:00" }] ∧
    ∃ staffList, respEx.staffAvailabilityResponse = some staffList ∧
      [({ startDateTime := "2024-12-05T17:00:00"
          endDateTime := "2024-12-05T17:30:00" } : Slot)]
        = (specAllItems staffList).filterMap specKeepSlot :=
  ⟨rfl, parser_output_is_status_filter respEx _ rfl⟩

/-- C3: a response without the top-level staffAvailabilityResponse member
parses to the ValidationError and never to a slot list, and a staff entry
without availabilityItems makes the parse fail as well. -/
theorem parser_missing_fields_fail (data : RawResponse) :
    (data.staffAvailabilityResponse = none →
      parseSlots data = .error .missingStaffAvailabilityResponse) ∧
    (∀ staffList staff, data.staffAvailabilityResponse = some staffList →
      staff ∈ staffList → staff.availabilityItems = none →
      ∀ slots, parseSlots data ≠ .ok slots) := by
  constructor
  · intro h
    unfold parseSlots
    rw [h]
  · intro staffList staff hresp hmem hnone slots hok
    unfold parseSlots at hok
    split at hok
    · simp at hok
    · rename_i sl hsl
      rw [hresp] at hsl
      injection hsl with hsl
      subst hsl
      split at hok
      · simp at hok
      · exact (parseStaffList_ok_items_present _ _ hok staff hmem) hnone

/-- C3 witness: the theorem applied to a response with the top-level
member absent, and to one whose staff entry misses its items. -/
theorem parser_missing_fields_fail_witness :
    parseSlots { staffAvailabilityResponse := none }
        = .error .missingStaffAvailabilityResponse ∧
    parseSlots respMissingItems ≠ .ok [] :=
  ⟨(parser_missing_fields_fail { staffAvailabilityResponse := none }).1 rfl,
   (parser_missing_fields_fail respMissingItems).2
     [{ availabilityItems := none }] { availabilityItems := none }
     rfl (by decide) rfl []⟩

/-- C4: an item whose status is kept but whose start or end timestamp is
missing (or empty) fails the whole parse; no partial slot list is
returned. -/
theorem parser_missing_timestamp_fails (data : RawResponse)
    (staffList : List RawStaff) (staff : RawStaff) (items : List RawItem)
    (it : RawItem)
    (hresp : data.staffAvailabilityResponse = some staffList)
    (hmem : staff ∈ staffList)
    (hitems : staff.availabilityItems = some items)
    (hit : it ∈ items)
    (hkeep : ¬ statusExcluded it.status)
    (hts : pyTruthyStr (itemGetStart it) = false ∨ pyTruthyStr (itemGetEnd it) = false) :
    ∀ slots, parseSlots data ≠ .ok slots := by
  intro slots hok
  unfold parseSlots at hok
  split at hok
  · simp at hok
  · rename_i sl hsl
    rw [hresp] at hsl
    injection hsl with hsl
    subst hsl
    split at hok
    · simp at hok
    · have := parseStaffList_ok_item_timestamps _ _ hok staff hmem items hitems it hit hkeep
      rcases hts with h1 | h1 <;> rw [h1] at this <;> simp at this

/-- C4 witness: the theorem applied to a response whose kept item misses
the end timestamp. -/
theorem parser_missing_timestamp_fails_witness :
    parseSlots respBadItem ≠ .ok [] :=
  parser_missing_timestamp_fails respBadItem
    [{ availabilityItems := some [freeItemNoEnd] }]
    { availabilityItems := some [freeItemNoEnd] }
    [freeItemNoEnd] freeItemNoEnd
    rfl (by decide) rfl (by decide) (by decide) (by decide) []

/-- C10: a present but empty (falsy) staffAvailabilityResponse list
raises the same ValidationError as an absent member: zero staff entries
never yield an empty slot sequence. -/
theorem parser_empty_staff_list_fails (data : RawResponse)
    (h : data.staffAvailabilityResponse = some []) :
    parseSlots data = .error .missingStaffAvailabilityResponse ∧
    parseSlots { staffAvailabilityResponse := none }
      = .error .missingStaffAvailabilityResponse := by
  constructor
  · unfold parseSlots
    rw [h]
    simp
  · rfl

/-- C10 witness: the theorem applied to the empty staff list. -/
theorem parser_empty_staff_list_fails_witness :
    parseSlots { staffAvailabilityResponse := some [] }
        = .error .missingStaffAvailabilityResponse ∧
    parseSlots { staffAvailabilityResponse := none }
        = .error .missingStaffAvailabilityResponse :=
  parser_empty_staff_list_fails { staffAvailabilityResponse := some [] } rfl

/-- C5: the payload window is start = now minus one day and
end = start plus twelve days, rendered as calendar dates at midnight with
the fixed upstream timezone label on both ends; at
now = 2024-10-10T00:00:00Z (epoch 1728518400) the body carries
2024-10-09T00:00:00 and 2024-10-21T00:00:00. -/
theorem payload_window (serviceId : String) (staffIds : List String) :
    (∀ nowUtcSecs,
      (createPostPayload serviceId staffIds nowUtcSecs).startDateTime.dateTime
          = dateAtMidnightStr (nowUtcSecs - 86400) ∧
      (createPostPayload serviceId staffIds nowUtcSecs).endDateTime.dateTime
          = dateAtMidnightStr (nowUtcSecs - 86400 + 12 * 86400) ∧
      (createPostPayload serviceId staffIds nowUtcSecs).startDateTime.timeZone
          = "Pacific Standard Time" ∧
      (createPostPayload serviceId staffIds nowUtcSecs).endDateTime.timeZone
          = "Pacific Standard Time") ∧
    (createPostPayload serviceId staffIds 1728518400).startDateTime.dateTime
        = "2024-10-09T00:00:00" ∧
    (createPostPayload serviceId staffIds 1728518400).endDateTime.dateTime
        = "2024-10-21T00:00:00" := by
  refine ⟨fun _ => ⟨rfl, rfl, rfl, rfl⟩, ?_, ?_⟩
  · show dateAtMidnightStr (1728518400 - 86400) = "2024-10-09T00:00:00"
    decide
  · show dateAtMidnightStr (1728518400 - 86400 + 12 * 86400) = "2024-10-21T00:00:00"
    decide

/-- C7: a non-200 GET status ends the cycle before the POST: no POST is
issued, no parse attempted, the failure is logged and the loop sleeps
the configured interval. -/
theorem get_failure_skips_post (cfg : Config) (tz : Int → Int) (sysOffMin : Int)
    (failSend : String → Bool) (testMode : Bool) (interval : Nat)
    (env : CycleEnv) (gst : Nat)
    (hget : env.getResult = some gst) (hst : gst ≠ 200) :
    runCycle cfg tz sysOffMin failSend testMode interval env =
      .ok { postIssued := false, parseAttempted := false, calls := []
            errorLogged := true, sleptSeconds := interval } := by
  unfold runCycle outerTryBody
  rw [hget]
  simp [hst]

/-- C7 witness: the theorem applied to a 503 GET. -/
theorem get_failure_skips_post_witness :
    runCycle cfgEx laTzOffsetMin 0 (fun _ => false) false 60
        { getResult := some 503, postResult := none }
      = .ok { postIssued := false, parseAttempted := false, calls := []
              errorLogged := true, sleptSeconds := 60 } :=
  get_failure_skips_post cfgEx laTzOffsetMin 0 (fun _ => false) false 60
    { getResult := some 503, postResult := none } 503 rfl (by decide)

/-- C9 counterexample: a 200 POST whose body decodes to a top-level JSON
array makes parse_data raise AttributeError (a list has no get
attribute); neither the inner except for ValueError nor the outer except
for RequestException catches it, so the cycle never completes and the
exception escapes the loop, crashing the process. -/
theorem cycle_crash_on_ill_shaped_body :
    runCycleJ cfgEx laTzOffsetMin 0 (fun _ => false) false 60
        { getResult := some 200, postResult := some (200, some (Json.arr [])) }
      = .error PyExn.attributeError ∧
    ¬ ∃ t, runCycleJ cfgEx laTzOffsetMin 0 (fun _ => false) false 60
        { getResult := some 200, postResult := some (200, some (Json.arr [])) }
      = .ok t := by
  have base : runCycleJ cfgEx laTzOffsetMin 0 (fun _ => false) false 60
      { getResult := some 200, postResult := some (200, some (Json.arr [])) }
    = .error PyExn.attributeError := rfl
  refine ⟨base, ?_⟩
  rintro ⟨t, ht⟩
  rw [base] at ht
  exact Except.noConfusion ht

/-- C9 (amended): every ValueError raised during PARSE — a JSON decode
failure from response.json(), or a validation error parse_data itself
raises on a decoded document — is caught inside the poll loop: the cycle
is abandoned with a log entry and no notification, the loop sleeps the
configured interval and continues, and transport, status and
notification failures are likewise contained.  The containment stops
there: a body that decodes to JSON of an unexpected shape makes
parse_data raise AttributeError or TypeError, which neither except
clause catches, and that exception escapes the loop and crashes the
process. -/
theorem cycle_valueerrors_recovered (cfg : Config) (tz : Int → Int)
    (sysOffMin : Int) (failSend : String → Bool) (testMode : Bool)
    (interval : Nat) (env : CycleEnvJ) :
    ((∀ data, env.getResult = some 200 →
        env.postResult = some (200, some data) →
        ∀ e, parseDataJ cfg tz sysOffMin failSend testMode data = .error e →
          e = PyExn.valueError) →
      ∃ t : CycleTrace,
        runCycleJ cfg tz sysOffMin failSend testMode interval env = .ok t ∧
        t.sleptSeconds = interval ∧
        (env.getResult = some 200 →
          ∀ decoded, env.postResult = some (200, decoded) →
            (decoded = none ∨ (∃ data, decoded = some data ∧
              parseDataJ cfg tz sysOffMin failSend testMode data
                = .error PyExn.valueError)) →
            t.errorLogged = true ∧ t.calls = [])) ∧
    (∀ data e, env.getResult = some 200 →
      env.postResult = some (200, some data) →
      parseDataJ cfg tz sysOffMin failSend testMode data = .error e →
      (e = PyExn.attributeError ∨ e = PyExn.typeError) →
      runCycleJ cfg tz sysOffMin failSend testMode interval env = .error e) := by
  obtain ⟨g, p⟩ := env
  rcases g with _ | gst
  · constructor
    · intro _
      exact ⟨_, rfl, rfl, by intro hg; simp at hg⟩
    · intro data e hg
      simp at hg
  · by_cases h200 : gst = 200
    · subst h200
      rcases p with _ | ⟨pst, decoded⟩
      · constructor
        · intro _
          exact ⟨_, rfl, rfl, by intro _ decoded hp; simp at hp⟩
        · intro data e _ hp
          simp at hp
      · by_cases hpst : pst = 200
        · subst hpst
          rcases decoded with _ | data
          · constructor
            · intro _
              exact ⟨_, rfl, rfl, fun _ _ _ _ => ⟨rfl, rfl⟩⟩
            · intro data e _ hp
              simp at hp
          · rcases hpd : parseDataJ cfg tz sysOffMin failSend testMode data with e0 | out
            · cases e0 with
              | valueError =>
                constructor
                · intro _
                  refine ⟨{ postIssued := true, parseAttempted := true, calls := []
                            errorLogged := true, sleptSeconds := interval }, ?_, rfl, ?_⟩
                  · simp [runCycleJ, outerTryBodyJ, innerTryBodyJ, hpd]
                  · exact fun _ _ _ _ => ⟨rfl, rfl⟩
                · intro data' e' _ hp hpe hor
                  simp only [Option.some.injEq, Prod.mk.injEq] at hp
                  obtain ⟨_, hd⟩ := hp
                  subst hd
                  rw [hpd] at hpe
                  simp only [Except.error.injEq] at hpe
                  subst hpe
                  rcases hor with h | h <;> simp at h
              | attributeError =>
                constructor
                · intro hpre
                  have hve := hpre data rfl rfl _ hpd
                  simp at hve
                · intro data' e' _ hp hpe _
                  simp only [Option.some.injEq, Prod.mk.injEq] at hp
                  obtain ⟨_, hd⟩ := hp
                  subst hd
                  rw [hpd] at hpe
                  simp only [Except.error.injEq] at hpe
                  subst hpe
                  simp [runCycleJ, outerTryBodyJ, innerTryBodyJ, hpd]
              | typeError =>
                constructor
                · intro hpre
                  have hve := hpre data rfl rfl _ hpd
                  simp at hve
                · intro data' e' _ hp hpe _
                  simp only [Option.some.injEq, Prod.mk.injEq] at hp
                  obtain ⟨_, hd⟩ := hp
                  subst hd
                  rw [hpd] at hpe
                  simp only [Except.error.injEq] at hpe
                  subst hpe
                  simp [runCycleJ, outerTryBodyJ, innerTryBodyJ, hpd]
              | requestException =>
                constructor
                · intro hpre
                  have hve := hpre data rfl rfl _ hpd
                  simp at hve
                · intro data' e' _ hp hpe hor
                  simp only [Option.some.injEq, Prod.mk.injEq] at hp
                  obtain ⟨_, hd⟩ := hp
                  subst hd
                  rw [hpd] at hpe
                  simp only [Except.error.injEq] at hpe
                  subst hpe
                  rcases hor with h | h <;> simp at h
            · constructor
              · intro _
                refine ⟨{ postIssued := true, parseAttempted := true, calls := out.calls
                          errorLogged := false, sleptSeconds := interval }, ?_, rfl, ?_⟩
                · simp [runCycleJ, outerTryBodyJ, innerTryBodyJ, hpd]
                · intro _ decoded' hp hfailed
                  simp only [Option.some.injEq, Prod.mk.injEq] at hp
                  obtain ⟨_, hd⟩ := hp
                  rcases hfailed with hnone | ⟨data', hde, hpe⟩
                  · rw [← hd] at hnone; simp at hnone
                  · rw [← hd] at hde
                    simp only [Option.some.injEq] at hde
                    subst hde
                    rw [hpd] at hpe
                    simp at hpe
              · intro data' e' _ hp hpe _
                simp only [Option.some.injEq, Prod.mk.injEq] at hp
                obtain ⟨_, hd⟩ := hp
                subst hd
                rw [hpd] at hpe
                simp at hpe
        · constructor
          · intro _
            refine ⟨{ postIssued := true, parseAttempted := false, calls := []
                      errorLogged := true, sleptSeconds := interval }, ?_, rfl, ?_⟩
            · simp [runCycleJ, outerTryBodyJ, hpst]
            · intro _ decoded' hp _
              simp only [Option.some.injEq, Prod.mk.injEq] at hp
              exact absurd hp.1 hpst
          · intro data e _ hp _ _
            simp only [Option.some.injEq, Prod.mk.injEq] at hp
            exact absurd hp.1 hpst
    · constructor
      · intro _
        refine ⟨{ postIssued := false, parseAttempted := false, calls := []
                  errorLogged := true, sleptSeconds := interval }, ?_, rfl, ?_⟩
        · simp [runCycleJ, outerTryBodyJ, h200]
        · intro hg
          simp only [Option.some.injEq] at hg
          exact absurd hg h200
      · intro data e hg _ _ _
        simp only [Option.some.injEq] at hg
        exact absurd hg h200

/-- C9 witness: the amended theorem applied to a cycle whose POST body
fails to decode, a ValueError from response.json(): the cycle is
abandoned, logged and slept. -/
theorem cycle_valueerrors_recovered_witness :
    ∃ t : CycleTrace,
      runCycleJ cfgEx laTzOffsetMin 0 (fun _ => false) false 60
          { getResult := some 200, postResult := some (200, none) } = .ok t ∧
      t.sleptSeconds = 60 ∧
      (({ getResult := some 200, postResult := some (200, none) }
          : CycleEnvJ).getResult = some 200 →
        ∀ decoded,
          ({ getResult := some 200, postResult := some (200, none) }
            : CycleEnvJ).postResult = some (200, decoded) →
          (decoded = none ∨ (∃ data, decoded = some data ∧
            parseDataJ cfgEx laTzOffsetMin 0 (fun _ => false) false data
              = .error PyExn.valueError)) →
          t.errorLogged = true ∧ t.calls = []) :=
  (cycle_valueerrors_recovered cfgEx laTzOffsetMin 0 (fun _ => false) false 60
    { getResult := some 200, postResult := some (200, none) }).1
    (by intro data hg hp e hpe; simp at hp)

/-- C1 counterexample: with two configured recipients and a send that
fails for the first, the Twilio create call is never invoked for the
second (later) recipient, because the exception handler wraps the whole
fan-out loop rather than one send. -/
theorem notification_failure_blocks_rest :
    (send_notification ["+15550000001", "+15550000002"]
        (fun s => s == "+15550000001") "msg").1.map NotifyCall.recipient
      = ["+15550000001"] ∧
    "+15550000002" ∉ ((send_notification ["+15550000001", "+15550000002"]
        (fun s => s == "+15550000001") "msg").1.map NotifyCall.recipient) ∧
    (send_notification ["+15550000001", "+15550000002"]
        (fun s => s == "+15550000001") "msg").2 = true := by
  refine ⟨?_, ?_, ?_⟩ <;> decide

/-- C1 (amended): a delivery failure for one recipient aborts the fan-out
to the remaining recipients of that cycle (the exception escapes the
recipient loop), but it is caught inside send_notification, so the cycle
itself completes, sleeps the configured interval, and later cycles are
unaffected. -/
theorem notification_failure_aborts_fanout (pre post : List String)
    (r msg : String) (failSend : String → Bool)
    (hr : pyStrip r ≠ "") (hfail : failSend (pyStrip r) = true)
    (hpre : ∀ p ∈ pre, pyStrip p ≠ "" ∧ failSend (pyStrip p) = false) :
    (send_notification (pre ++ r :: post) failSend msg).1
        = (pre.map fun p => { recipient := pyStrip p, body := msg })
          ++ [{ recipient := pyStrip r, body := msg }] ∧
    (send_notification (pre ++ r :: post) failSend msg).2 = true ∧
    (∀ (cfg : Config) (tz : Int → Int) (sysOffMin : Int) (testMode : Bool)
        (interval : Nat) (env : CycleEnv),
      ∃ t, runCycle cfg tz sysOffMin failSend testMode interval env = .ok t ∧
        t.sleptSeconds = interval) := by
  have hne : pre ++ r :: post ≠ [] := by simp
  have hfo := fanOut_stops failSend msg r post hr hfail pre hpre
  refine ⟨?_, ?_, ?_⟩
  · simp [send_notification, hne, hfo]
  · simp [send_notification, hne, hfo]
  · intro cfg tz sysOffMin testMode interval env
    obtain ⟨t, h1, h2, _⟩ :=
      runCycle_contained cfg tz sysOffMin failSend testMode interval env
    exact ⟨t, h1, h2⟩

/-- C1 witness: the amended theorem applied to an empty prefix, a failing
first recipient and one later recipient. -/
theorem notification_failure_aborts_fanout_witness :
    (send_notification (([] : List String) ++ "+15550000001" :: ["+15550000002"])
        (fun s => s == "+15550000001") "msg").1
        = (([] : List String).map fun p =>
            ({ recipient := pyStrip p, body := "msg" } : NotifyCall))
          ++ [{ recipient := pyStrip "+15550000001", body := "msg" }] ∧
    (send_notification (([] : List String) ++ "+15550000001" :: ["+15550000002"])
        (fun s => s == "+15550000001") "msg").2 = true :=
  ⟨(notification_failure_aborts_fanout [] ["+15550000002"] "+15550000001" "msg"
      (fun s => s == "+15550000001") (by decide) (by decide)
      (fun p hp => nomatch hp)).1,
   (notification_failure_aborts_fanout [] ["+15550000002"] "+15550000001" "msg"
      (fun s => s == "+15550000001") (by decide) (by decide)
      (fun p hp => nomatch hp)).2.1⟩

/-- C6: the notifier is invoked in a cycle exactly when the parsed slot
list is non-empty; when it is, the message carries the booking link and
one Twilio call is made per configured recipient. -/
theorem notifier_iff_nonempty_slots (cfg : Config) (tz : Int → Int)
    (sysOffMin : Int) (testMode : Bool) (data : RawResponse) (out : ParseOutcome)
    (hrec : cfg.recipients ≠ [])
    (htrim : ∀ r ∈ cfg.recipients, pyStrip r ≠ "")
    (h : parseData cfg tz sysOffMin (fun _ => false) testMode data = .ok out) :
    (out.calls = [] ↔ out.slots = []) ∧
    (out.slots ≠ [] →
      out.calls.map NotifyCall.recipient = cfg.recipients.map pyStrip ∧
      ∀ c ∈ out.calls, ∃ formatted,
        c.body = "Booking Slots Available!\n\n" ++ formatted
                 ++ "\n\nGo to: " ++ getUrl cfg) := by
  unfold parseData at h
  split at h
  · simp at h
  · rename_i slots hav
    split at h
    · rename_i hempty
      simp only [Except.ok.injEq] at h
      subst h
      exact ⟨by simp [hempty], fun hne => absurd hempty hne⟩
    · rename_i hempty
      split at h
      · simp at h
      · rename_i formatted hfmt
        simp only [Except.ok.injEq] at h
        subst h
        have hsn : send_notification cfg.recipients (fun _ => false)
            ("Booking Slots Available!\n\n" ++ formatted
              ++ "\n\nGo to: " ++ getUrl cfg)
            = (cfg.recipients.map fun rr =>
                { recipient := pyStrip rr
                  body := "Booking Slots Available!\n\n" ++ formatted
                          ++ "\n\nGo to: " ++ getUrl cfg }, false) := by
          unfold send_notification
          rw [if_neg hrec]
          exact fanOut_all_ok _ cfg.recipients htrim
        constructor
        · simp only [hsn]
          constructor
          · intro hmapnil
            exact absurd (List.map_eq_nil_iff.mp hmapnil) hrec
          · intro hnil
            exact absurd hnil hempty
        · intro _
          constructor
          · simp [hsn, List.map_map]
          · intro c hc
            simp only [hsn] at hc
            obtain ⟨rr, _, hrr⟩ := List.mem_map.mp hc
            exact ⟨formatted, by rw [← hrr]⟩

/-- C6 witness: the theorem applied to cfgEx and the concrete two-item
response; one skipped BUSY item, one kept slot, both recipients called. -/
theorem notifier_iff_nonempty_slots_witness :
    parseData cfgEx laTzOffsetMin 0 (fun _ => false) false respEx = .ok outEx ∧
    ((outEx.calls = [] ↔ outEx.slots = []) ∧
     (outEx.slots ≠ [] →
       outEx.calls.map NotifyCall.recipient = cfgEx.recipients.map pyStrip ∧
       ∀ c ∈ outEx.calls, ∃ formatted,
         c.body = "Booking Slots Available!\n\n" ++ formatted
                  ++ "\n\nGo to: " ++ getUrl cfgEx)) :=
  ⟨rfl, notifier_iff_nonempty_slots cfgEx laTzOffsetMin 0 false respEx outEx
    (by decide) (by decide) rfl⟩

/-- C8 counterexample: when the process system timezone is
America/Los_Angeles itself (offset -420 minutes at the fixture instant),
Python interprets the naive fixture timestamps in that zone, and the
formatter renders 06:00PM - 06:30PM rather than the claimed line. -/
theorem test_mode_render_counterexample :
    formatAvailableSlots laTzOffsetMin (-420) [fixtureSlot]
        = some "Oct 22 06:00PM - 06:30PM" ∧
    formatAvailableSlots laTzOffsetMin (-420) [fixtureSlot]
        ≠ some "Oct 22 11:00AM - 11:30AM" := by
  refine ⟨?_, ?_⟩ <;> decide

/-- C8 (amended): with the test-mode flag set and the process system
timezone UTC, parse_data ignores the upstream response and yields exactly
the fixture slot, the formatter under America/Los_Angeles renders it as
Oct 22 11:00AM - 11:30AM, and one Twilio call per configured recipient
carries a message with that line and the booking link.  (In general the
rendered hour shifts with the system timezone in which Python interprets
the naive fixture timestamps.) -/
theorem test_mode_pipeline_utc (cfg : Config) (data : RawResponse)
    (out : ParseOutcome)
    (htrim : ∀ r ∈ cfg.recipients, pyStrip r ≠ "")
    (h : parseData cfg laTzOffsetMin 0 (fun _ => false) true data = .ok out) :
    out.slots = [fixtureSlot] ∧
    out.calls = cfg.recipients.map fun r =>
      { recipient := pyStrip r
        body := "Booking Slots Available!\n\n" ++ "Oct 22 11:00AM - 11:30AM"
                ++ "\n\nGo to: " ++ getUrl cfg } := by
  have hfix : availableSlots true data = .ok [fixtureSlot] := rfl
  have hfmt : formatAvailableSlots laTzOffsetMin 0 [fixtureSlot]
      = some "Oct 22 11:00AM - 11:30AM" := by decide
  unfold parseData at h
  split at h
  · rename_i e herr
    rw [hfix] at herr
    simp at herr
  · rename_i slots hav
    rw [hfix] at hav
    simp only [Except.ok.injEq] at hav
    subst hav
    split at h
    · rename_i hempty
      simp at hempty
    · split at h
      · rename_i hnone
        rw [hfmt] at hnone
        simp at hnone
      · rename_i formatted hsome
        rw [hfmt] at hsome
        simp only [Option.some.injEq] at hsome
        subst hsome
        simp only [Except.ok.injEq] at h
        subst h
        refine ⟨rfl, ?_⟩
        by_cases hrec : cfg.recipients = []
        · simp [send_notification, hrec]
        · unfold send_notification
          rw [if_neg hrec]
          rw [fanOut_all_ok _ cfg.recipients htrim]

/-- C8 witness: the amended theorem applied to cfgEx in test mode with a
response that would not even validate, showing the upstream data is
ignored. -/
theorem test_mode_pipeline_utc_witness :
    parseData cfgEx laTzOffsetMin 0 (fun _ => false) true respMissingItems
        = .ok outFixtureEx ∧
    (outFixtureEx.slots = [fixtureSlot] ∧
     outFixtureEx.calls = cfgEx.recipients.map fun r =>
       { recipient := pyStrip r
         body := "Booking Slots Available!\n\n" ++ "Oct 22 11:00AM - 11:30AM"
                 ++ "\n\nGo to: " ++ getUrl cfgEx }) :=
  ⟨rfl, test_mode_pipeline_utc cfgEx respMissingItems outFixtureEx
    (by decide) rfl⟩

end OutlookChecker
